import Mathlib

/-!
Verification of the mit-xpro client-side checkout pricing, coupon handling,
auth-response dispatch and product/run selection logic.

The JavaScript sources are embedded shallowly:
* `Decimal` values (decimal.js-light) are modelled as exact rationals `ℚ`;
  every operation used by the embedded code (`times`, `minus`, `toFixed`)
  is exact at the precision exercised here.
* JS `null`/`undefined` are modelled with `Option`.
* Objects keyed by ids are modelled as association lists.
* JS truthiness on numbers (`!x`) and strings (`!s`) is made explicit.
-/

namespace MitXpro

/-- A course inside a basket item (`Course` in `flow/courseTypes.js`);
only the fields used by `CheckoutForm.validate` are kept. -/
structure Course where
  id : ℕ
  title : String
deriving DecidableEq

/-- `BasketItem` from `flow/ecommerceTypes.js` (a `ProductVersion` plus run ids);
only the fields used by the pricing engine and the checkout form are kept.
`price` is a decimal string in the source, modelled as an exact rational. -/
structure BasketItem where
  product_id : ℕ
  price : ℚ
  courses : List Course
deriving DecidableEq

/-- `CouponSelection` from `flow/ecommerceTypes.js`: a coupon code, a fractional
discount `amount` (a decimal string in the source) and target product ids. -/
structure CouponSelection where
  code : String
  amount : ℚ
  targets : List ℕ
deriving DecidableEq

/-- Round a rational to an integer number of cents, half away from zero:
`Decimal.ROUND_HALF_UP` of decimal.js-light applied at 2 decimal places. -/
def centsHalfUp (q : ℚ) : ℤ :=
  if 0 ≤ q then ⌊100 * q + 1 / 2⌋ else -⌊100 * (-q) + 1 / 2⌋

/-- `x.toFixed(2, Decimal.ROUND_HALF_UP)` as a rational: round to 2 decimal
places, ties away from zero. -/
def roundHalfUp2 (q : ℚ) : ℚ :=
  (centsHalfUp q : ℚ) / 100

/-- Modelled from the spec: `calculateDiscount(item, coupon)` of
`lib/ecommerce.js`, which is absent from the sources (only its tests and
callers are present).  Per the spec it returns 0 when no coupon is applied or
the item's product id is not among `coupon.targets`, and otherwise the
coupon fraction times the item price.  The repository's own test
(`lib/ecommerce_test.js`: price "123.45", amount "0.5" gives a total of
"61.72") forces the discount to be rounded half-up to 2 decimal places
before it is subtracted, so the product is passed through `roundHalfUp2`. -/
def calculateDiscount (item : BasketItem) (coupon : Option CouponSelection) : ℚ :=
  match coupon with
  | some c => if item.product_id ∈ c.targets then roundHalfUp2 (c.amount * item.price) else 0
  | none => 0

/-- Modelled from the spec: `calculatePrice(item, coupon)` of
`lib/ecommerce.js` (absent from the sources): the item price minus
`calculateDiscount item coupon`. -/
def calculatePrice (item : BasketItem) (coupon : Option CouponSelection) : ℚ :=
  item.price - calculateDiscount item coupon

/-- Render a natural number below 100 as two digits (cents). -/
def twoDigits (n : ℕ) : String :=
  if n < 10 then "0" ++ toString n else toString n

/-- Modelled from the spec: `formatPrice(value)` of `lib/ecommerce.js`
(absent from the sources).  `none` stands for both `null` and `undefined`
and yields the empty string; otherwise the value is rounded half-up to two
decimal places and rendered with a dollar sign, a trailing ".00" stripped.
The concrete outputs are pinned by `lib/ecommerce_test.js`. -/
def formatPrice : Option ℚ → String
  | none => ""
  | some q =>
    let k := centsHalfUp q
    let sign := if k < 0 then "-" else ""
    let a := k.natAbs
    if a % 100 = 0 then
      "$" ++ sign ++ toString (a / 100)
    else
      "$" ++ sign ++ toString (a / 100) ++ "." ++ twoDigits (a % 100)

/-! ## CheckoutForm (`components/forms/CheckoutForm.js`) -/

/-- JS truthiness of `selectedRuns[course.id]`: an absent key or the number 0
is falsy, any other number is truthy. -/
def jsTruthyNum (v : Option ℤ) : Bool :=
  match v with
  | none => false
  | some n => n != 0

/-- The `for (const course of item.courses)` loop of `CheckoutForm.validate`:
collect, in order, the titles of the courses with no truthy selected run. -/
def missingTitles (runs : List (ℕ × ℤ)) : List Course → List String
  | [] => []
  | c :: rest =>
    if jsTruthyNum (runs.lookup c.id) then missingTitles runs rest
    else c.title :: missingTitles runs rest

/-- `CheckoutForm.validate(values)`: returns no error (`none`, the empty error
object) when every course has a selected run, else a single `runs` error
listing the titles of the missing courses joined by ", ".
`runs` is the `values.runs` object, an association of course id to run id. -/
def checkoutValidate (item : BasketItem) (runs : List (ℕ × ℤ)) : Option String :=
  let missingCourses := missingTitles runs item.courses
  if missingCourses.isEmpty then none
  else some ("No run selected for " ++ String.intercalate ", " missingCourses)

/-- The `onMount` callback of `CheckoutForm.render`: submit the coupon code
query parameter iff it is truthy (a non-empty string) and differs from the
code of the already-applied coupon.  The result is the code passed to
`submitCoupon` (`none` when no submission happens). -/
def checkoutOnMount (couponCode : Option String)
    (coupon : Option CouponSelection) : Option String :=
  match couponCode with
  | none => none
  | some cc =>
    if cc = "" then none
    else
      match coupon with
      | none => some cc
      | some c => if c.code = cc then none else some cc

/-! ## B2BPurchaseForm, coupon-aware version (`applyCoupon` and `renderForm`) -/

/-- The form field values read by `applyCoupon`: the `coupon` and `product`
text fields (JS strings; the empty string is falsy). -/
structure B2BFormValues where
  coupon : String
  product : String
deriving DecidableEq

/-- The observable outcome of one `applyCoupon` invocation:
whether `clearCouponStatus()` was called, the `setFieldError` call if any,
and whether the remote coupon-status lookup was performed. -/
structure ApplyCouponResult where
  clearedStatus : Bool
  fieldError : Option (String × String)
  fetched : Bool
deriving DecidableEq

/-- `B2BPurchaseForm.applyCoupon(values, setFieldError, event)`:
an empty coupon code clears the coupon status and returns; a missing product
sets a field error; otherwise the coupon status is fetched and a non-200
response sets an "Invalid coupon code" field error.  `fetchStatus` is the
HTTP status the lookup would return. -/
def applyCoupon (values : B2BFormValues) (fetchStatus : ℕ) : ApplyCouponResult :=
  if values.coupon = "" then
    { clearedStatus := true, fieldError := none, fetched := false }
  else if values.product = "" then
    { clearedStatus := false, fieldError := some ("coupon", "No product selected"), fetched := false }
  else if fetchStatus ≠ 200 then
    { clearedStatus := false, fieldError := some ("coupon", "Invalid coupon code"), fetched := true }
  else
    { clearedStatus := false, fieldError := none, fetched := true }

/-- The price block of the coupon-aware `B2BPurchaseForm.renderForm`:
`itemPrice`, the optional `discount` and `totalPrice`, computed with exact
decimal arithmetic (`Decimal.times` / `Decimal.minus`) from the product
version price, the parsed seat count and the optional coupon status
discount fraction. -/
def b2bRenderPrices (price : ℚ) (numSeats : ℕ) (discountPercent : Option ℚ) :
    ℚ × Option ℚ × ℚ :=
  let itemPrice := price
  let base := itemPrice * numSeats
  match discountPercent with
  | none => (itemPrice, none, base)
  | some d =>
    let discount := d * itemPrice * numSeats
    (itemPrice, some discount, base - discount)

/-! ## B2BPurchaseForm, earlier version (`components/forms/B2BPurchaseForm.js`)

Its render callback computes `totalPrice = itemPrice * new Decimal(numSeats)`.
The JS `*` operator coerces both `Decimal` operands to `Number`, so the
multiplication happens in IEEE-754 binary64.  The model below implements
round-to-nearest, ties-to-even binary64 rounding for values in the normal
range (subnormals and overflow are outside the magnitudes exercised). -/

/-- Round a rational to the nearest integer, ties to even. -/
def rne (x : ℚ) : ℤ :=
  let f := ⌊x⌋
  if x - f < 1 / 2 then f
  else if 1 / 2 < x - f then f + 1
  else if f % 2 = 0 then f else f + 1

/-- Scale a positive rational into `[1, 2)` by powers of two, returning the
mantissa and the binary exponent; `fuel` bounds the search. -/
def f64norm : ℕ → ℚ → ℤ → ℚ × ℤ
  | 0, q, e => (q, e)
  | n + 1, q, e =>
    if q < 1 then f64norm n (2 * q) (e - 1)
    else if 2 ≤ q then f64norm n (q / 2) (e + 1)
    else (q, e)

/-- The IEEE-754 binary64 value nearest to a rational (normal range):
the exact semantics of a JS `Number` holding this quantity. -/
def roundFloat64 (q : ℚ) : ℚ :=
  if q = 0 then 0
  else
    let s : ℚ := if q < 0 then -1 else 1
    let me := f64norm 4400 |q| 0
    s * ((rne (me.1 * 2 ^ 52) : ℚ) * (2 : ℚ) ^ me.2 / 2 ^ 52)

/-- `totalPrice = itemPrice * new Decimal(numSeats)` from the earlier
`B2BPurchaseForm.js`: both operands are coerced to binary64 numbers and
multiplied by the JS `*` operator, whose result is again a binary64. -/
def b2bTotalPriceOld (price : ℚ) (numSeats : ℕ) : ℚ :=
  roundFloat64 (roundFloat64 price * roundFloat64 (numSeats : ℚ))

/-! ## Auth response dispatch (`lib/auth.js`, modelled from the spec) -/

/-- The eleven `AuthStates` string values declared in `flow/authTypes.js`. -/
def knownAuthStates : List String :=
  ["success", "inactive", "error",
   "login/email", "login/password", "login/provider",
   "register/email", "register/confirm-sent", "register/confirm",
   "register/details", "register/extra"]

/-- One step of a server-driven auth flow (`AuthResponse` in
`flow/authTypes.js`); `state` is kept as a raw string so that malformed
responses are representable, and `stepToken` is the `partial_token`
threading session continuity between steps. -/
structure AuthResponse where
  state : String
  stepToken : Option String
deriving DecidableEq

/-- What a `handleAuthResponse` call did: ran the caller-supplied handler
identified by `tag`, performed the default navigation for the state, or
failed on an unknown state. -/
inductive AuthResult where
  | handled (tag : ℕ)
  | navigated (route : String) (stepToken : Option String)
  | stateError (state : String)
deriving DecidableEq

/-- Modelled from the spec: the default route derived from a known auth
state (route strings from `lib/urls.js` where one exists). -/
def defaultRoute (state : String) : String :=
  if state = "login/email" then "/login/"
  else if state = "login/password" then "/login/password/"
  else if state = "login/provider" then "/login/"
  else if state = "register/email" then "/signup/"
  else if state = "register/confirm-sent" then "/signup/confirm/"
  else if state = "register/confirm" then "/signup/confirm/"
  else if state = "register/details" then "/signup/details/"
  else if state = "register/extra" then "/signup/extra/"
  else if state = "success" then "/dashboard/"
  else if state = "inactive" then "/"
  else "/"

/-- Modelled from the spec: `handleAuthResponse(navigator, response,
handlerMap)` of `lib/auth.js`, which is absent from the sources (only the
sites importing it are present).  It looks up `handlerMap[response.state]` and
invokes it when present; otherwise, for a known state it performs the
default navigation derived from the state, carrying the partial token; an
unrecognized state fails with an `UnknownAuthStateError` surfaced to the
caller, never a silent no-op.  Handlers are modelled as an association of
state string to a numeric tag identifying the caller-supplied handler. -/
def handleAuthResponse (handlers : List (String × ℕ)) (r : AuthResponse) : AuthResult :=
  match handlers.lookup r.state with
  | some tag => .handled tag
  | none =>
    if r.state ∈ knownAuthStates then .navigated (defaultRoute r.state) r.stepToken
    else .stateError r.state

/-! ## ProductSelector (`components/input/ProductSelector.js`,
modelled from the spec and `ProductSelector_test.js`) -/

/-- The two product types of `constants.js`. -/
inductive ProductType where
  | courserun
  | program
deriving DecidableEq

/-- The selector's transient UI state: the chosen product type and the
currently selected product/run pair, if any. -/
structure SelectorState where
  productType : ProductType
  selected : Option (ℕ × ℕ)
deriving DecidableEq

/-- Modelled from the spec: the product-type `Select` onChange handler of
`ProductSelector.js`, which is absent from the sources.  Per the spec and
`ProductSelector_test.js`: picking the type already selected leaves the
state unchanged and emits nothing to the parent form; picking a different
type stores it, clears the product/run selection and emits the cleared
value `""` through `field.onChange`.  The second component is the value
emitted to the parent form, `none` when `onChange` is not called. -/
def selectProductType (st : SelectorState) (t : ProductType) :
    SelectorState × Option String :=
  if t = st.productType then (st, none)
  else ({ productType := t, selected := none }, some "")

/-! ## Sample data -/

/-- A basket item with price "123.45", as built in `lib/ecommerce_test.js`. -/
def sampleItem : BasketItem :=
  { product_id := 10, price := 123.45, courses := [] }

/-- A coupon targeting `sampleItem` with amount "0.5", as in
`lib/ecommerce_test.js`. -/
def sampleCoupon : CouponSelection :=
  { code := "welcome", amount := 0.5, targets := [10] }

/-- A basket item priced at 100 with product id 3. -/
def overItem : BasketItem :=
  { product_id := 3, price := 100, courses := [] }

/-- A coupon with fraction 2 (200 percent) targeting `overItem`:
outside the data model's 0..1 range but accepted by the code. -/
def overCoupon : CouponSelection :=
  { code := "mega", amount := 2, targets := [3] }

/-! ## Rounding lemmas -/

/-- Half-up rounding to cents moves a nonnegative value by at most half a
cent. -/
theorem roundHalfUp2_close (x : ℚ) (hx : 0 ≤ x) : |roundHalfUp2 x - x| ≤ 1 / 200 := by
  rw [roundHalfUp2, centsHalfUp, if_pos hx]
  rw [abs_sub_le_iff]
  constructor
  · rw [div_sub' _ _ _ (by norm_num : (100 : ℚ) ≠ 0), div_le_div_iff₀ (by norm_num) (by norm_num)]
    have h := Int.floor_le (100 * x + 1 / 2)
    nlinarith
  · rw [sub_div' _ _ _ (by norm_num : (100 : ℚ) ≠ 0), div_le_div_iff₀ (by norm_num) (by norm_num)]
    have h := Int.lt_floor_add_one (100 * x + 1 / 2)
    nlinarith

/-- Half-up rounding to cents is monotone on nonnegative values. -/
theorem roundHalfUp2_mono (x y : ℚ) (hx : 0 ≤ x) (hxy : x ≤ y) :
    roundHalfUp2 x ≤ roundHalfUp2 y := by
  have hy : 0 ≤ y := hx.trans hxy
  rw [roundHalfUp2, roundHalfUp2, centsHalfUp, centsHalfUp, if_pos hx, if_pos hy]
  have h : (⌊100 * x + 1 / 2⌋ : ℤ) ≤ ⌊100 * y + 1 / 2⌋ :=
    Int.floor_mono (by linarith)
  have h2 : ((⌊100 * x + 1 / 2⌋ : ℤ) : ℚ) ≤ ((⌊100 * y + 1 / 2⌋ : ℤ) : ℚ) := by
    exact_mod_cast h
  linarith

/-- A nonnegative whole number of cents is a fixed point of half-up rounding
to cents. -/
theorem roundHalfUp2_eq_self (x : ℚ) (hx : 0 ≤ x) (hden : (100 * x).den = 1) :
    roundHalfUp2 x = x := by
  have hk : ((100 * x).num : ℚ) = 100 * x := (Rat.den_eq_one_iff _).mp hden
  rw [roundHalfUp2, centsHalfUp, if_pos hx]
  rw [← hk, add_comm, Int.floor_add_int]
  norm_num
  rw [hk]
  ring

/-- C1: for every basket item and optional coupon, `calculatePrice` returns
the item price minus `calculateDiscount` — hence the price unchanged when no
coupon is supplied or the coupon does not target the item — and on the test
vector of `lib/ecommerce_test.js` (price "123.45", applicable coupon of
amount "0.5") it returns 123.45 without a coupon and 61.72 with it. -/
theorem calculatePrice_spec (item : BasketItem) (coupon : Option CouponSelection) :
    calculatePrice item coupon = item.price - calculateDiscount item coupon
    ∧ calculatePrice item none = item.price
    ∧ (∀ c : CouponSelection, item.product_id ∉ c.targets →
        calculatePrice item (some c) = item.price)
    ∧ calculatePrice sampleItem none = 123.45
    ∧ calculatePrice sampleItem (some sampleCoupon) = 61.72 := by
  refine ⟨rfl, by simp [calculatePrice, calculateDiscount], ?_, ?_, ?_⟩
  · intro c hc
    simp [calculatePrice, calculateDiscount, hc]
  · norm_num [calculatePrice, calculateDiscount, sampleItem]
  · norm_num [calculatePrice, calculateDiscount, roundHalfUp2, centsHalfUp,
      sampleItem, sampleCoupon]

/-- Witness for `calculatePrice_spec` at the test item and coupon. -/
theorem calculatePrice_spec_witness :
    calculatePrice sampleItem (some sampleCoupon) =
      sampleItem.price - calculateDiscount sampleItem (some sampleCoupon) :=
  (calculatePrice_spec sampleItem (some sampleCoupon)).1

/-- C2 counterexample: on the repository's own test vector the discount is
not the exact product `item.price * coupon.amount`: the product 61.725 is
rounded to 61.73 (otherwise the pinned total 61.72 would be unreachable). -/
theorem calculateDiscount_not_exact_product :
    calculateDiscount sampleItem (some sampleCoupon) ≠
      sampleItem.price * sampleCoupon.amount := by
  norm_num [calculateDiscount, roundHalfUp2, centsHalfUp, sampleItem, sampleCoupon]

/-- C2 amended: `calculateDiscount` returns 0 when the coupon is null or the
item's product id is not in `coupon.targets`; otherwise it returns
`item.price * coupon.amount` rounded half-up to 2 decimal places — a whole
number of cents within half a cent of the exact product. -/
theorem calculateDiscount_rounded_spec (item : BasketItem) (c : CouponSelection)
    (hmem : item.product_id ∈ c.targets) (hpos : 0 ≤ c.amount * item.price) :
    calculateDiscount item none = 0
    ∧ (∀ c₂ : CouponSelection, item.product_id ∉ c₂.targets →
        calculateDiscount item (some c₂) = 0)
    ∧ calculateDiscount item (some c) = roundHalfUp2 (c.amount * item.price)
    ∧ |calculateDiscount item (some c) - c.amount * item.price| ≤ 1 / 200
    ∧ (100 * calculateDiscount item (some c)).den = 1 := by
  refine ⟨rfl, ?_, ?_, ?_, ?_⟩
  · intro c₂ hc₂
    simp [calculateDiscount, hc₂]
  · simp [calculateDiscount, hmem]
  · simp only [calculateDiscount, hmem, if_true]
    exact roundHalfUp2_close _ hpos
  · simp only [calculateDiscount, hmem, if_true, roundHalfUp2]
    rw [mul_div_cancel₀ _ (by norm_num : (100 : ℚ) ≠ 0)]
    exact Rat.den_intCast _

/-- Witness for `calculateDiscount_rounded_spec` at the test item and
coupon: the discount there is 61.73, not the exact product 61.725. -/
theorem calculateDiscount_rounded_spec_witness :
    calculateDiscount sampleItem (some sampleCoupon) =
      roundHalfUp2 (sampleCoupon.amount * sampleItem.price) :=
  (calculateDiscount_rounded_spec sampleItem sampleCoupon (by simp [sampleItem, sampleCoupon])
    (by norm_num [sampleItem, sampleCoupon])).2.2.1

/-- C3 counterexample: the code never clamps the total at zero: a coupon
with fraction 2 applied to an item priced at 100 yields a total of -100. -/
theorem calculatePrice_can_be_negative :
    calculatePrice overItem (some overCoupon) < 0 := by
  norm_num [calculatePrice, calculateDiscount, roundHalfUp2, centsHalfUp,
    overItem, overCoupon]

/-- C3 amended: no clamping is performed, but within the data model's
`amount : Decimal(0..1)` range the total is never negative, provided the
item price is a nonnegative whole number of cents (a well-formed decimal
price string). -/
theorem calculatePrice_nonneg (item : BasketItem) (coupon : Option CouponSelection)
    (hprice : 0 ≤ item.price) (hcents : (100 * item.price).den = 1)
    (hamount : ∀ c : CouponSelection, coupon = some c → 0 ≤ c.amount ∧ c.amount ≤ 1) :
    0 ≤ calculatePrice item coupon := by
  match coupon with
  | none => simpa [calculatePrice, calculateDiscount] using hprice
  | some c =>
    obtain ⟨ha0, ha1⟩ := hamount c rfl
    rw [calculatePrice, calculateDiscount]
    by_cases hmem : item.product_id ∈ c.targets
    · rw [if_pos hmem, sub_nonneg]
      calc roundHalfUp2 (c.amount * item.price)
          ≤ roundHalfUp2 item.price :=
            roundHalfUp2_mono _ _ (by positivity) (mul_le_of_le_one_left hprice ha1)
        _ = item.price := roundHalfUp2_eq_self _ hprice hcents
    · rw [if_neg hmem]
      simpa using hprice

/-- Witness for `calculatePrice_nonneg` at the test item and coupon. -/
theorem calculatePrice_nonneg_witness :
    0 ≤ calculatePrice sampleItem (some sampleCoupon) :=
  calculatePrice_nonneg sampleItem (some sampleCoupon)
    (by norm_num [sampleItem])
    (by norm_num [sampleItem])
    (by rintro c ⟨rfl⟩; constructor <;> norm_num [sampleCoupon])

/-- C5: `formatPrice` returns the empty string for a null or undefined
input, and otherwise formats the value rounded half-up to 2 decimal places
behind a dollar sign with a trailing ".00" stripped, matching every example
pinned by `lib/ecommerce_test.js`; the rounded value is within half a cent
of the input. -/
theorem formatPrice_spec :
    formatPrice none = ""
    ∧ (∀ q : ℚ, 0 ≤ q → |roundHalfUp2 q - q| ≤ 1 / 200)
    ∧ formatPrice (some 20) = "$20"
    ∧ formatPrice (some 20.005) = "$20.01"
    ∧ formatPrice (some 20.1) = "$20.10"
    ∧ formatPrice (some 20.6059) = "$20.61"
    ∧ formatPrice (some 20.6959) = "$20.70"
    ∧ formatPrice (some 20.1234567) = "$20.12" := by
  refine ⟨rfl, roundHalfUp2_close, ?_, ?_, ?_, ?_, ?_, ?_⟩
  · have h : centsHalfUp 20 = 2000 := by norm_num [centsHalfUp]
    simp [formatPrice, h]
    rfl
  · have h : centsHalfUp 20.005 = 2001 := by norm_num [centsHalfUp]
    simp [formatPrice, h, twoDigits]
    rfl
  · have h : centsHalfUp 20.1 = 2010 := by norm_num [centsHalfUp]
    simp [formatPrice, h, twoDigits]
    rfl
  · have h : centsHalfUp 20.6059 = 2061 := by norm_num [centsHalfUp]
    simp [formatPrice, h, twoDigits]
    rfl
  · have h : centsHalfUp 20.6959 = 2070 := by norm_num [centsHalfUp]
    simp [formatPrice, h, twoDigits]
    rfl
  · have h : centsHalfUp 20.1234567 = 2012 := by norm_num [centsHalfUp]
    simp [formatPrice, h, twoDigits]
    rfl

/-! ## Auth dispatch lemmas -/

/-- A handler map keyed only by known states has no entry for an unknown
state. -/
theorem lookup_none_of_unknown (handlers : List (String × ℕ)) (s : String)
    (hkeys : ∀ p ∈ handlers, p.1 ∈ knownAuthStates) (hs : s ∉ knownAuthStates) :
    handlers.lookup s = none := by
  induction handlers with
  | nil => rfl
  | cons p rest ih =>
    obtain ⟨k, v⟩ := p
    have hp : k ∈ knownAuthStates := hkeys (k, v) (List.mem_cons_self _ _)
    have hne : s ≠ k := fun h => hs (h ▸ hp)
    simp only [List.lookup, beq_eq_false_iff_ne.mpr hne]
    exact ih fun q hq => hkeys q (List.mem_cons_of_mem _ hq)

/-- C4: for every auth response whose state is not one of the known enum
values, `handleAuthResponse` (with a handler map keyed by known states, as
all its call sites supply) fails with an `UnknownAuthStateError` carrying
the offending state, surfaced to the caller — never a silent no-op. -/
theorem handleAuthResponse_unknown_state (handlers : List (String × ℕ)) (r : AuthResponse)
    (hkeys : ∀ p ∈ handlers, p.1 ∈ knownAuthStates)
    (hstate : r.state ∉ knownAuthStates) :
    handleAuthResponse handlers r = AuthResult.stateError r.state := by
  rw [handleAuthResponse, lookup_none_of_unknown handlers r.state hkeys hstate]
  simp [hstate]

/-- Witness for `handleAuthResponse_unknown_state` at the malformed state
"bogus" with an empty handler map. -/
theorem handleAuthResponse_unknown_state_witness :
    handleAuthResponse [] { state := "bogus", stepToken := none } =
      AuthResult.stateError "bogus" :=
  handleAuthResponse_unknown_state [] { state := "bogus", stepToken := none }
    (by simp) (by decide)

/-- C6 counterexample: a failed lookup (non-200 status) for a non-empty
code with a product selected sets the "Invalid coupon code" field error but
does not clear the coupon status: a previously applied coupon is left in
place, not cleared. -/
theorem applyCoupon_failed_lookup_keeps_status :
    applyCoupon { coupon := "BADCODE", product := "42" } 400 =
      { clearedStatus := false,
        fieldError := some ("coupon", "Invalid coupon code"),
        fetched := true } := by
  decide

/-- C6 amended: a failed lookup sets a field-level validation error on the
coupon field and leaves any previously applied coupon status untouched; the
coupon status is cleared exactly when the submitted code is empty, in which
case no lookup and no error occur; a missing product also suppresses the
lookup with a field error; at most one lookup is performed, with no
retry. -/
theorem applyCoupon_spec (values : B2BFormValues) (status : ℕ) :
    (values.coupon = "" → applyCoupon values status =
      { clearedStatus := true, fieldError := none, fetched := false })
    ∧ (values.coupon ≠ "" → values.product = "" → applyCoupon values status =
      { clearedStatus := false,
        fieldError := some ("coupon", "No product selected"), fetched := false })
    ∧ (values.coupon ≠ "" → values.product ≠ "" → status ≠ 200 →
      applyCoupon values status =
        { clearedStatus := false,
          fieldError := some ("coupon", "Invalid coupon code"), fetched := true })
    ∧ (values.coupon ≠ "" → values.product ≠ "" → status = 200 →
      applyCoupon values status =
        { clearedStatus := false, fieldError := none, fetched := true }) := by
  refine ⟨?_, ?_, ?_, ?_⟩ <;> intros <;> simp_all [applyCoupon]

/-- Witness for `applyCoupon_spec`: an empty code clears the coupon status
without a lookup. -/
theorem applyCoupon_spec_witness :
    applyCoupon { coupon := "", product := "42" } 200 =
      { clearedStatus := true, fieldError := none, fetched := false } :=
  (applyCoupon_spec { coupon := "", product := "42" } 200).1 rfl

/-- C7 counterexample: selecting the product type that is already selected
is a no-op: no cleared value is emitted to the parent form and the prior
product/run selection is retained. -/
theorem selectProductType_same_type_no_emit :
    selectProductType { productType := ProductType.courserun, selected := some (5, 7) }
        ProductType.courserun =
      ({ productType := ProductType.courserun, selected := some (5, 7) }, none) := by
  decide

/-- C7 amended: selecting a product type different from the current one
clears the prior product/run selection and emits the cleared value `""` to
the parent form; selecting the already-selected type leaves the state
unchanged and emits nothing. -/
theorem selectProductType_spec (st : SelectorState) (t : ProductType) :
    (t ≠ st.productType →
      selectProductType st t = ({ productType := t, selected := none }, some ""))
    ∧ (t = st.productType → selectProductType st t = (st, none)) := by
  constructor
  · intro h
    simp [selectProductType, h]
  · intro h
    simp [selectProductType, h]

/-- Witness for `selectProductType_spec`: switching from course runs to
programs clears the selection and emits the cleared value. -/
theorem selectProductType_spec_witness :
    selectProductType { productType := ProductType.courserun, selected := some (5, 7) }
        ProductType.program =
      ({ productType := ProductType.program, selected := none }, some "") :=
  (selectProductType_spec
    { productType := ProductType.courserun, selected := some (5, 7) }
    ProductType.program).1 (by decide)

/-! ## binary64 evaluation lemmas -/

/-- `f64norm` is the identity once the mantissa lies in `[1, 2)`. -/
theorem f64norm_stable (n : ℕ) (q : ℚ) (e : ℤ) (h1 : 1 ≤ q) (h2 : q < 2) :
    f64norm (n + 1) q e = (q, e) := by
  have hq1 : ¬ q < 1 := not_lt.mpr h1
  have hq2 : ¬ 2 ≤ q := not_le.mpr h2
  simp [f64norm, hq1, hq2]

/-- `f64norm` halves a mantissa that is at least 2. -/
theorem f64norm_halve (n : ℕ) (q : ℚ) (e : ℤ) (h : 2 ≤ q) :
    f64norm (n + 1) q e = f64norm n (q / 2) (e + 1) := by
  have hq1 : ¬ q < 1 := by linarith
  simp [f64norm, hq1, h]

/-- The binary64 value nearest to the decimal 1.1: it is not 1.1 itself. -/
theorem roundFloat64_eval_one_one : roundFloat64 1.1 = 4953959590107546 / 2 ^ 52 := by
  have h0 : ¬ (1.1 : ℚ) = 0 := by norm_num
  have hneg : ¬ (1.1 : ℚ) < 0 := by norm_num
  have habs : |(1.1 : ℚ)| = 1.1 := abs_of_pos (by norm_num)
  have hnorm : f64norm 4400 (1.1 : ℚ) 0 = (1.1, 0) :=
    f64norm_stable 4399 (1.1 : ℚ) 0 (by norm_num) (by norm_num)
  simp only [roundFloat64, h0, if_false, hneg, habs, hnorm]
  norm_num [rne]

/-- The integer 3 is an exact binary64 value. -/
theorem roundFloat64_eval_three : roundFloat64 ((3 : ℕ) : ℚ) = 3 := by
  have h0 : ¬ ((3 : ℕ) : ℚ) = 0 := by norm_num
  have hneg : ¬ ((3 : ℕ) : ℚ) < 0 := by norm_num
  have habs : |((3 : ℕ) : ℚ)| = 3 := by norm_num
  have hnorm : f64norm 4400 (3 : ℚ) 0 = (3 / 2, 1) := by
    rw [f64norm_halve 4399 3 0 (by norm_num)]
    exact f64norm_stable 4398 (3 / 2 : ℚ) 1 (by norm_num) (by norm_num)
  simp only [roundFloat64, h0, if_false, hneg, habs, hnorm]
  norm_num [rne]

/-- C8 (code bug): the coupon-aware `B2BPurchaseForm.renderForm` computes
the totals exactly — `price * seats`, and `price * seats` minus
`discount_percent * price * seats` when a coupon status is present — for
all inputs; but the earlier `B2BPurchaseForm.js` computes
`itemPrice * new Decimal(numSeats)` with the JS `*` operator, which
coerces both decimals to binary64 floats: at price "1.1" and 3 seats it
produces the double 7430939385161319 / 2^51 (3.3000000000000003…), not the
exact 3.3. -/
theorem b2b_price_arithmetic :
    (∀ p : ℚ, ∀ n : ℕ, (b2bRenderPrices p n none).2.2 = p * n)
    ∧ (∀ p d : ℚ, ∀ n : ℕ,
        (b2bRenderPrices p n (some d)).2.2 = p * n - d * p * n)
    ∧ b2bTotalPriceOld 1.1 3 = 7430939385161319 / 2 ^ 51
    ∧ b2bTotalPriceOld 1.1 3 ≠ 1.1 * 3 := by
  have heval : b2bTotalPriceOld 1.1 3 = 7430939385161319 / 2 ^ 51 := by
    rw [b2bTotalPriceOld, roundFloat64_eval_one_one, roundFloat64_eval_three]
    have h0 : ¬ (4953959590107546 / 2 ^ 52 * 3 : ℚ) = 0 := by norm_num
    have hneg : ¬ (4953959590107546 / 2 ^ 52 * 3 : ℚ) < 0 := by norm_num
    have habs : |(4953959590107546 / 2 ^ 52 * 3 : ℚ)| = 4953959590107546 / 2 ^ 52 * 3 :=
      abs_of_pos (by norm_num)
    have hnorm : f64norm 4400 (4953959590107546 / 2 ^ 52 * 3 : ℚ) 0 =
        (7430939385161319 / 2 ^ 52, 1) := by
      rw [f64norm_halve 4399 _ 0 (by norm_num)]
      rw [show (4953959590107546 / 2 ^ 52 * 3 / 2 : ℚ) = 7430939385161319 / 2 ^ 52 by
        norm_num]
      exact f64norm_stable 4398 _ 1 (by norm_num) (by norm_num)
    simp only [roundFloat64, h0, if_false, hneg, habs, hnorm]
    norm_num [rne]
  refine ⟨fun p n => rfl, fun p d n => rfl, heval, ?_⟩
  rw [heval]
  norm_num

/-! ## CheckoutForm validation lemmas -/

/-- The validation loop collects exactly the titles of the courses whose
selected run is falsy, in order. -/
theorem missingTitles_eq_filter (runs : List (ℕ × ℤ)) (cs : List Course) :
    missingTitles runs cs =
      (cs.filter fun c => ! jsTruthyNum (runs.lookup c.id)).map Course.title := by
  induction cs with
  | nil => rfl
  | cons c rest ih =>
    by_cases h : jsTruthyNum (runs.lookup c.id)
    · simp [missingTitles, h, ih]
    · simp [missingTitles, h, ih]

/-- The validation loop collects nothing iff every course has a truthy
selected run. -/
theorem missingTitles_nil_iff (runs : List (ℕ × ℤ)) (cs : List Course) :
    missingTitles runs cs = [] ↔
      ∀ c ∈ cs, jsTruthyNum (runs.lookup c.id) = true := by
  induction cs with
  | nil => simp [missingTitles]
  | cons c rest ih =>
    by_cases h : jsTruthyNum (runs.lookup c.id)
    · simp [missingTitles, h, ih]
    · simp [missingTitles, h]

/-- C9: `CheckoutForm.validate` returns the empty error object exactly when
every course of the basket item has a truthy selected run, and otherwise a
single `runs` error of the form "No run selected for " followed by the
titles of the courses without a selected run, in item order, joined by
", ". -/
theorem checkoutValidate_spec (item : BasketItem) (runs : List (ℕ × ℤ)) :
    (checkoutValidate item runs = none ↔
      ∀ c ∈ item.courses, jsTruthyNum (runs.lookup c.id) = true)
    ∧ (checkoutValidate item runs = none ∨
        checkoutValidate item runs = some ("No run selected for " ++
          String.intercalate ", "
            ((item.courses.filter fun c => ! jsTruthyNum (runs.lookup c.id)).map
              Course.title))) := by
  have hiff := missingTitles_nil_iff runs item.courses
  have hfil := missingTitles_eq_filter runs item.courses
  by_cases h : missingTitles runs item.courses = []
  · constructor
    · simp only [checkoutValidate, h, List.isEmpty_nil, if_true, true_iff]
      exact hiff.mp h
    · left
      simp [checkoutValidate, h]
  · have hne : (missingTitles runs item.courses).isEmpty = false := by
      simpa [List.isEmpty_iff] using h
    constructor
    · simp only [checkoutValidate, hne, Bool.false_eq_true, if_false]
      constructor
      · intro hcontra
        exact absurd hcontra (by simp)
      · intro hall
        exact absurd (hiff.mpr hall) h
    · right
      rw [hfil] at hne
      simp only [checkoutValidate, hfil, hne, Bool.false_eq_true, if_false]

/-- Witness for `checkoutValidate_spec`: with course "B" lacking a run the
validator reports exactly it. -/
theorem checkoutValidate_spec_witness :
    checkoutValidate
        { product_id := 5, price := 100,
          courses := [{ id := 1, title := "Course A" }, { id := 2, title := "Course B" }] }
        [(1, 11)] =
      some "No run selected for Course B" := by
  have h := (checkoutValidate_spec
    { product_id := 5, price := 100,
      courses := [{ id := 1, title := "Course A" }, { id := 2, title := "Course B" }] }
    [(1, 11)]).2
  rcases h with h | h
  · exact absurd h (by decide)
  · rw [h]
    rfl

/-- C10: on checkout form mount, `submitCoupon` is invoked with the coupon
code query parameter exactly when that code is non-empty and either no
coupon is applied or the applied coupon's code differs from it. -/
theorem checkoutOnMount_spec (couponCode : Option String)
    (coupon : Option CouponSelection) (code : String) :
    checkoutOnMount couponCode coupon = some code ↔
      couponCode = some code ∧ code ≠ "" ∧
        (coupon = none ∨ ∃ c : CouponSelection, coupon = some c ∧ c.code ≠ code) := by
  match couponCode, coupon with
  | none, _ =>
    simp [checkoutOnMount]
  | some cc, none =>
    by_cases h : cc = ""
    · subst h
      simp [checkoutOnMount]
      rintro rfl
      simp
    · simp [checkoutOnMount, h]
      rintro rfl
      exact h
  | some cc, some c =>
    by_cases h : cc = ""
    · subst h
      simp [checkoutOnMount]
      rintro rfl
      simp
    · by_cases h2 : c.code = cc
      · subst h2
        simp [checkoutOnMount, h]
        rintro rfl
        simp [h]
      · simp [checkoutOnMount, h, h2]
        rintro rfl
        exact ⟨h, h2⟩

/-- Witness for `checkoutOnMount_spec`: a fresh non-empty code with no
applied coupon is submitted on mount. -/
theorem checkoutOnMount_spec_witness :
    checkoutOnMount (some "asdf") none = some "asdf" :=
  (checkoutOnMount_spec (some "asdf") none "asdf").mpr
    ⟨rfl, by decide, Or.inl rfl⟩

end MitXpro
